import Mathlib

/-!
Verification of the transport/auth core of a serverless Postgres driver
(`src/client.ts`).  The file embeds:

* the SCRAM-SHA-256 continuation handler `_handleAuthSASLContinue`
  (attribute parsing, validation, salted-password derivation, final
  message construction), with the HMAC-SHA-256 and SHA-256 primitives of
  `crypto.subtle` taken as abstract function parameters; and
* the `connect` override (double-encryption warning, missing-parameter
  throw, TLS pipelining, password pipelining), together with a small
  model of the Node-style event-emitter semantics the code relies on.

Bytes are modelled as `Nat` (all byte values stay below 256 because the
primitives are instantiated with byte lists; no arithmetic overflows the
byte range in the translated code).
-/

namespace NeonServerless

/-! ## Byte-level utilities translated from the code -/

/-- UTF-8 encoding of one character, as `TextEncoder().encode` produces. -/
def charUtf8 (c : Char) : List Nat :=
  let n := c.toNat
  if n < 0x80 then [n]
  else if n < 0x800 then [0xC0 + n / 64, 0x80 + n % 64]
  else if n < 0x10000 then [0xE0 + n / 4096, 0x80 + n / 64 % 64, 0x80 + n % 64]
  else [0xF0 + n / 262144, 0x80 + n / 4096 % 64, 0x80 + n / 64 % 64, 0x80 + n % 64]

/-- UTF-8 bytes of a string (`TextEncoder().encode`). -/
def utf8Bytes (s : String) : List Nat :=
  (s.data.map charUtf8).flatten

/-- The base64 alphabet used by `Buffer`. -/
def b64Alphabet : List Char :=
  "ABCDEFGHIJKLMNOPQRSTUVWXYZabcdefghijklmnopqrstuvwxyz0123456789+/".data

def b64Char (n : Nat) : Char := b64Alphabet.getD n 'A'

/-- Base64 encoding (`Buffer.prototype.toString with base64`), grouped 3 bytes
to 4 characters with `=` padding. -/
def base64EncodeAux : List Nat → List Char
  | b1 :: b2 :: b3 :: rest =>
      b64Char (b1 / 4) :: b64Char (b1 % 4 * 16 + b2 / 16) ::
      b64Char (b2 % 16 * 4 + b3 / 64) :: b64Char (b3 % 64) :: base64EncodeAux rest
  | [b1, b2] => [b64Char (b1 / 4), b64Char (b1 % 4 * 16 + b2 / 16), b64Char (b2 % 16 * 4), '=']
  | [b1] => [b64Char (b1 / 4), b64Char (b1 % 4 * 16), '=', '=']
  | [] => []

def base64Encode (bs : List Nat) : String := String.mk (base64EncodeAux bs)

/-- Value of a base64 alphabet character. -/
def b64Val (c : Char) : Nat :=
  let n := c.toNat
  if 65 ≤ n ∧ n ≤ 90 then n - 65
  else if 97 ≤ n ∧ n ≤ 122 then n - 97 + 26
  else if 48 ≤ n ∧ n ≤ 57 then n - 48 + 52
  else if c = '+' then 62
  else if c = '/' then 63
  else 0

/-- Base64 decoding of the padding-stripped character list
(`Buffer.from(salt, base64)` on input already validated by the salt regex). -/
def base64DecodeAux : List Char → List Nat
  | c1 :: c2 :: c3 :: c4 :: rest =>
      (b64Val c1 * 4 + b64Val c2 / 16) ::
      (b64Val c2 % 16 * 16 + b64Val c3 / 4) ::
      ((b64Val c3 % 4 * 64 + b64Val c4) :: base64DecodeAux rest)
  | [c1, c2] => [b64Val c1 * 4 + b64Val c2 / 16]
  | [c1, c2, c3] => [b64Val c1 * 4 + b64Val c2 / 16, b64Val c2 % 16 * 16 + b64Val c3 / 4]
  | _ => []

def base64Decode (s : String) : List Nat :=
  base64DecodeAux (s.data.filter (fun c => c ≠ '='))

/-- The XOR combination written in the code as
`buf.map((_, i) => buf[i] ^ other[i])`: it iterates over the indices of the
first array, and a missing index of the second coerces to 0 (as JS
`x ^ undefined` does). -/
def xorZipCode (a b : List Nat) : List Nat :=
  (List.range a.length).map (fun i => a.getD i 0 ^^^ b.getD i 0)

/-! ## SCRAM data model (`_handleAuthSASLContinue`) -/

/-- The distinct failure exits of `_handleAuthSASLContinue`, one per `throw`
site.  `configCryptoMissing` is the spec's `ConfigurationError`; all others
are `AuthError`s in the spec's taxonomy. -/
inductive SASLError where
  | configCryptoMissing
  | protocolError
  | invalidAttrPair
  | nonceMissingUnprintable
  | saltMissingNotBase64
  | invalidIterationCount
  | nonceStartMismatch
  | nonceTooShort
deriving DecidableEq, Repr

/-- Whether a failure belongs to the spec's `AuthError` class (everything
except the missing-crypto `ConfigurationError`). -/
def SASLError.isAuthError : SASLError → Bool
  | .configCryptoMissing => false
  | _ => true

/-- The fields of `this.saslSession` read by the handler. -/
structure SaslSession where
  message : String
  clientNonce : String
deriving DecidableEq, Repr

/-- Inputs the handler reads: availability of `crypto.subtle.importKey`,
the SASL session, `this.password` (`none` when not a string), and
`msg.data` (`none` when not a string). -/
structure ScramInput where
  cryptoAvailable : Bool
  session : SaslSession
  password : Option String
  serverData : Option String
deriving DecidableEq, Repr

/-- The observable outcome of a successful run: the session fields written
and the argument passed to `connection.sendSCRAMClientFinalMessage`. -/
structure ScramOutcome where
  sessionMessage : String
  serverSignature : String
  response : String
  sent : String
deriving DecidableEq, Repr

/-- Values extracted by a fully successful validation phase. -/
structure ScramParams where
  password : String
  nonce : String
  salt : String
  iterationText : String
deriving DecidableEq, Repr

/-- Helper for `splitComma`: accumulates the current field (reversed). -/
def splitCommaAux : List Char → List Char → List String
  | [], acc => [String.mk acc.reverse]
  | ',' :: rest, acc => String.mk acc.reverse :: splitCommaAux rest []
  | c :: rest, acc => splitCommaAux rest (c :: acc)

/-- JS `s.split(',')`: splits at every comma; the empty string yields one
empty field. -/
def splitComma (s : String) : List String := splitCommaAux s.data []

/-- Boolean prefix test on character lists. -/
def listIsPrefixOf : List Char → List Char → Bool
  | [], _ => true
  | _ :: _, [] => false
  | a :: as, b :: bs => a = b && listIsPrefixOf as bs

/-- JS `s.startsWith(pre)`. -/
def strStartsWith (s pre : String) : Bool := listIsPrefixOf pre.data s.data

/-- One entry of `serverData.split(',')` checked against `/^.=/` (any
non-line-terminator first character, then `=`); name is the first
character, value is `substring(2)`. -/
def parseAttrPair (s : String) : Except SASLError (Char × String) :=
  match s.data with
  | c :: '=' :: rest =>
      if c.toNat = 10 ∨ c.toNat = 13 ∨ c.toNat = 0x2028 ∨ c.toNat = 0x2029 then
        .error .invalidAttrPair
      else .ok (c, String.mk rest)
  | _ => .error .invalidAttrPair

/-- `Object.fromEntries(serverData.split(',').map(...))`: the map throws on
the first bad entry. -/
def parseAttrPairs (s : String) : Except SASLError (List (Char × String)) :=
  (splitComma s).mapM parseAttrPair

/-- Attribute lookup with `Object.fromEntries` semantics: the last pair with
a given name wins. -/
def lookupAttr (ps : List (Char × String)) (k : Char) : Option String :=
  (ps.reverse.find? (fun p => p.1 = k)).map Prod.snd

/-- Character class of the nonce regex `[!-+--~]`: `0x21`–`0x2B` or
`0x2D`–`0x7E` (printable ASCII minus space and comma). -/
def nonceChar (c : Char) : Bool :=
  (33 ≤ c.toNat && c.toNat ≤ 43) || (45 ≤ c.toNat && c.toNat ≤ 126)

/-- Characters admitted in base64 groups by the salt regex. -/
def b64MainChar (c : Char) : Bool :=
  (65 ≤ c.toNat && c.toNat ≤ 90) || (97 ≤ c.toNat && c.toNat ≤ 122) ||
  (48 ≤ c.toNat && c.toNat ≤ 57) || c = '+' || c = '/'

/-- The salt regex: zero or more groups of four base64 characters, optionally
ended by a group padded with `==` or `=`. -/
def isBase64Chars : List Char → Bool
  | [] => true
  | [a, b, '=', '='] => b64MainChar a && b64MainChar b
  | [a, b, c, '='] => b64MainChar a && b64MainChar b && b64MainChar c
  | a :: b :: c :: d :: rest =>
      b64MainChar a && b64MainChar b && b64MainChar c && b64MainChar d && isBase64Chars rest
  | _ => false

def isBase64String (s : String) : Bool := isBase64Chars s.data

/-- The iteration-count regex `[1-9][0-9]*`. -/
def iterTextOk (s : String) : Bool :=
  match s.data with
  | [] => false
  | c :: rest => (49 ≤ c.toNat && c.toNat ≤ 57) && rest.all Char.isDigit

/-- `parseInt(s, 10)` on an all-digit string. -/
def parseDecimal (s : String) : Nat :=
  s.data.foldl (fun acc c => acc * 10 + (c.toNat - 48)) 0

/-- The validation phase of `_handleAuthSASLContinue`, in the exact order of
the code: protocol-state/typing check, attribute-pair parse, then the
nonce, salt, iteration-count, nonce-prefix and nonce-length checks. -/
def scramValidate (inp : ScramInput) : Except SASLError ScramParams :=
  match inp.password, inp.serverData with
  | some password, some serverData =>
    if inp.session.message ≠ "SASLInitialResponse" then .error .protocolError
    else
      match parseAttrPairs serverData with
      | .error e => .error e
      | .ok pairs =>
        match lookupAttr pairs 'r' with
        | none => .error .nonceMissingUnprintable
        | some nonce =>
          if nonce = "" ∨ ¬ nonce.data.all nonceChar then .error .nonceMissingUnprintable
          else
            match lookupAttr pairs 's' with
            | none => .error .saltMissingNotBase64
            | some salt =>
              if salt = "" ∨ ¬ isBase64String salt then .error .saltMissingNotBase64
              else
                match lookupAttr pairs 'i' with
                | none => .error .invalidIterationCount
                | some iterationText =>
                  if ¬ iterTextOk iterationText then .error .invalidIterationCount
                  else if ¬ strStartsWith nonce inp.session.clientNonce then
                    .error .nonceStartMismatch
                  else if nonce.length = inp.session.clientNonce.length then
                    .error .nonceTooShort
                  else .ok ⟨password, nonce, salt, iterationText⟩
  | _, _ => .error .protocolError

/-- The iteration loop of the salted-password derivation:
`for (i = 0; i < iterations - 1; i++) { ui1 = HMAC(pw, ui1); ui = xor(ui, ui1) }`
on the state `(ui1, ui)`. -/
def scramIterLoop (hmac : List Nat → List Nat → List Nat) (pw : List Nat) :
    Nat → List Nat × List Nat → List Nat × List Nat
  | 0, s => s
  | n + 1, s => scramIterLoop hmac pw n (hmac pw s.1, xorZipCode s.2 (hmac pw s.1))

/-- The salted password as the code computes it: `u1 = HMAC(pw, salt || [0,0,0,1])`,
then `iterations - 1` further rounds folded by XOR. -/
def scramSaltedPassword (hmac : List Nat → List Nat → List Nat)
    (pw saltBytes : List Nat) (iterations : Nat) : List Nat :=
  let u1 := hmac pw (saltBytes ++ [0, 0, 0, 1])
  (scramIterLoop hmac pw (iterations - 1) (u1, u1)).2

/-- The computation phase of `_handleAuthSASLContinue` after validation
succeeds, ending with `sendSCRAMClientFinalMessage(this.saslSession.response)`. -/
def scramCompute (hmac : List Nat → List Nat → List Nat) (sha256 : List Nat → List Nat)
    (clientNonce : String) (p : ScramParams) : ScramOutcome :=
  let iterations := parseDecimal p.iterationText
  let saltBytes := base64Decode p.salt
  let passwordBytes := utf8Bytes p.password
  let saltedPassword := scramSaltedPassword hmac passwordBytes saltBytes iterations
  let clientKey := hmac saltedPassword (utf8Bytes "Client Key")
  let storedKey := sha256 clientKey
  let clientFirstMessageBare := "n=*,r=" ++ clientNonce
  let serverFirstMessage := "r=" ++ p.nonce ++ ",s=" ++ p.salt ++ ",i=" ++ toString iterations
  let clientFinalMessageWithoutProof := "c=biws,r=" ++ p.nonce
  let authMessage :=
    clientFirstMessageBare ++ "," ++ serverFirstMessage ++ "," ++ clientFinalMessageWithoutProof
  let clientSignature := hmac storedKey (utf8Bytes authMessage)
  let clientProof := base64Encode (xorZipCode clientKey clientSignature)
  let serverKey := hmac saltedPassword (utf8Bytes "Server Key")
  let serverSignatureBytes := hmac serverKey (utf8Bytes authMessage)
  { sessionMessage := "SASLResponse"
    serverSignature := base64Encode serverSignatureBytes
    response := clientFinalMessageWithoutProof ++ ",p=" ++ clientProof
    sent := clientFinalMessageWithoutProof ++ ",p=" ++ clientProof }

/-- `_handleAuthSASLContinue`: the `crypto.subtle` availability check, then
validation, then the key-derivation/final-message computation. -/
def handleAuthSASLContinue (hmac : List Nat → List Nat → List Nat)
    (sha256 : List Nat → List Nat) (inp : ScramInput) : Except SASLError ScramOutcome :=
  if inp.cryptoAvailable = false then .error .configCryptoMissing
  else
    match scramValidate inp with
    | .error e => .error e
    | .ok p => .ok (scramCompute hmac sha256 inp.session.clientNonce p)

/-- Whether the handler failed with an error of the spec's `AuthError` class. -/
def isAuthFailure : Except SASLError ScramOutcome → Bool
  | .error e => e.isAuthError
  | .ok _ => false

/-! ## Event-emitter model for the `connect` override

`connect` manipulates Node-style listeners on `this.connection`.  We model
the four event names it touches, the handlers it registers (as tags with
their effect given by `runHandler`), and `emit` with Node semantics: the
listener list is snapshotted at emit time, `once` listeners are removed
before their invocation, and listeners added during the emit do not run in
the same emit. -/

inductive EventName where
  | connectEv
  | sslconnectEv
  | readyForQueryEv
  | authCleartextEv
deriving DecidableEq, Repr

/-- Observable calls made by the registered handlers and by `connect` itself. -/
inductive Action where
  | warnDoubleSSL
  | superConnect
  | warnIfBrowser
  | callHandleAuthCleartextPassword
  | callHandleReadyForQuery
  | streamDataS
deriving DecidableEq, Repr

inductive HandlerTag where
  | handleReadyForQuery
  | handleAuthCleartextPassword
  | rearmReadyForQuery
  | pipelineStartup
  | injectSslAccept
deriving DecidableEq, Repr

structure Listener where
  tag : HandlerTag
  once : Bool
deriving DecidableEq, Repr

structure EmitterState where
  connectL : List Listener
  sslconnectL : List Listener
  readyForQueryL : List Listener
  authCleartextL : List Listener
deriving DecidableEq, Repr

def emptyEmitter : EmitterState := ⟨[], [], [], []⟩

def EmitterState.get (st : EmitterState) : EventName → List Listener
  | .connectEv => st.connectL
  | .sslconnectEv => st.sslconnectL
  | .readyForQueryEv => st.readyForQueryL
  | .authCleartextEv => st.authCleartextL

def EmitterState.set (st : EmitterState) : EventName → List Listener → EmitterState
  | .connectEv, ls => { st with connectL := ls }
  | .sslconnectEv, ls => { st with sslconnectL := ls }
  | .readyForQueryEv, ls => { st with readyForQueryL := ls }
  | .authCleartextEv, ls => { st with authCleartextL := ls }

/-- `con.on(e, l)` appends a listener. -/
def addL (e : EventName) (l : Listener) (st : EmitterState) : EmitterState :=
  st.set e (st.get e ++ [l])

/-- Effect of each registered handler.  `dw` is
`neonConfig.disableWarningInBrowsers` read at call time. -/
def runHandler (dw : Bool) : HandlerTag → EmitterState → EmitterState × List Action
  | .handleReadyForQuery, st => (st, [.callHandleReadyForQuery])
  | .handleAuthCleartextPassword, st => (st, [.callHandleAuthCleartextPassword])
  | .rearmReadyForQuery, st =>
      (addL .readyForQueryEv ⟨.handleReadyForQuery, false⟩ st, [])
  | .pipelineStartup, st =>
      (st, (if dw then [] else [.warnIfBrowser]) ++
           [.callHandleAuthCleartextPassword, .callHandleReadyForQuery])
  | .injectSslAccept, st => (st, [.streamDataS])

def runListeners (dw : Bool) : List Listener → EmitterState → EmitterState × List Action
  | [], st => (st, [])
  | l :: rest, st =>
      let r1 := runHandler dw l.tag st
      let r2 := runListeners dw rest r1.1
      (r2.1, r1.2 ++ r2.2)

/-- `con.emit(e)`: snapshot the listeners, drop the `once` ones from the
stored list, then run the snapshot in order. -/
def emitEvent (dw : Bool) (st : EmitterState) (e : EventName) : EmitterState × List Action :=
  let ls := st.get e
  runListeners dw ls (st.set e (ls.filter (fun l => !l.once)))

/-- Iterated emission of `readyForQuery`, keeping only the state. -/
def emitIter (dw : Bool) : Nat → EmitterState → EmitterState
  | 0, s => s
  | n + 1, s => emitIter dw n (emitEvent dw s .readyForQueryEv).1

/-! ## The `connect` override -/

/-- `pipelineConnect` configuration: the type is `"password" | false`. -/
inductive PipelineMode where
  | password
  | off
deriving DecidableEq, Repr

/-- The shapes `this.config` can take: absent, a connection string, or a
config object (of which `connect` reads `host` and `connectionString`). -/
inductive ConfigModel where
  | noConfig
  | connStr (s : String)
  | obj (host : Option String) (connectionString : Option String)
deriving DecidableEq, Repr

/-- The client state `connect` reads and writes. -/
structure NeonState where
  config : ConfigModel
  envPGHOST : Option String
  envUSER : Option String
  envUSERNAME : Option String
  host : String
  user : Option String
  database : Option String
  password : Option String
  ssl : Bool
  forceDisablePgSSL : Bool
  useSecureWebSocket : Bool
  pipelineTLS : Bool
  pipelineConnect : PipelineMode
  emitter : EmitterState
deriving DecidableEq, Repr

/-- `(typeof config !== 'string' && (config?.host ≠ undefined || config?.connectionString ≠ undefined)) || PGHOST ≠ undefined`. -/
def hasConfiguredHost (st : NeonState) : Bool :=
  (match st.config with
   | .obj h c => h.isSome || c.isSome
   | _ => false) || st.envPGHOST.isSome

/-- `process.env.USER ?? process.env.USERNAME`. -/
def defaultUser (st : NeonState) : Option String :=
  match st.envUSER with
  | some u => some u
  | none => st.envUSERNAME

/-- JS template interpolation of a possibly-undefined value. -/
def showOpt : Option String → String
  | none => "undefined"
  | some s => s

/-- The message of the missing-parameters `Error`. -/
def missingParamsMsg (du : Option String) : String :=
  "No database host or connection string was set, and key parameters have default values (host: localhost, user: " ++
  showOpt du ++ ", db: " ++ showOpt du ++
  ", password: null). Is an environment variable missing? Alternatively, if you intended to connect with these parameters, please set the host to 'localhost' explicitly."

/-- Modelled from the spec: when the underlying `super.connect` of the
external protocol engine runs, the engine subscribes its normal
password-auth and ready-for-query handlers on the connection (spec section 6:
the protocol engine "fires named lifecycle events (password-auth-requested,
SASL-continue-received, ready-for-query)" which its own handlers answer). -/
def superConnectEmitter (em : EmitterState) : EmitterState :=
  addL .authCleartextEv ⟨.handleAuthCleartextPassword, false⟩
    (addL .readyForQueryEv ⟨.handleReadyForQuery, false⟩ em)

/-- `NeonClient.connect`: disable SSL when forced, warn on double
encryption, throw on missing connection parameters, run `super.connect`,
then install the TLS-pipelining and password-pipelining listeners. -/
def connect (st0 : NeonState) : List Action × Except String NeonState :=
  let st := if st0.forceDisablePgSSL then { st0 with ssl := false } else st0
  let warnActs := if st.ssl && st.useSecureWebSocket then [Action.warnDoubleSSL] else []
  if hasConfiguredHost st = false ∧ st.host = "localhost" ∧ st.user = defaultUser st ∧
      st.database = defaultUser st ∧ st.password = none then
    (warnActs, .error (missingParamsMsg (defaultUser st)))
  else
    let st := { st with emitter := superConnectEmitter st.emitter }
    let acts := warnActs ++ [Action.superConnect]
    let pTLS := st.pipelineTLS && st.ssl
    let pConn := st.pipelineConnect = PipelineMode.password
    if pTLS = false ∧ st.pipelineConnect = PipelineMode.off then (acts, .ok st)
    else
      let em1 := if pTLS then addL .connectEv ⟨.injectSslAccept, false⟩ st.emitter else st.emitter
      let em2 :=
        if pConn then
          addL (if st.ssl then .sslconnectEv else .connectEv) ⟨.pipelineStartup, false⟩
            (addL .readyForQueryEv ⟨.rearmReadyForQuery, true⟩
              ((em1.set .authCleartextEv []).set .readyForQueryEv []))
        else em1
      (acts, .ok { st with emitter := em2 })

/-! ## Spec-side reference definitions

These follow the words of the specification and of the claims, to be
compared with the code-derived definitions above. -/

/-- Follows the spec's words: `U1 = HMAC-SHA-256(password, salt || 0x00000001)`
and `U(k+1) = HMAC-SHA-256(password, Uk)`; index `k` here denotes `U(k+1)`. -/
def scramU (hmac : List Nat → List Nat → List Nat) (pw saltBytes : List Nat) : Nat → List Nat
  | 0 => hmac pw (saltBytes ++ [0, 0, 0, 1])
  | k + 1 => hmac pw (scramU hmac pw saltBytes k)

/-- Follows the spec's words: `saltedPassword = U1 XOR U2 XOR ... XOR Un`;
index `k` here is the XOR of `U1` through `U(k+1)`, so `n` iterations give
index `n - 1`. -/
def scramHiSpec (hmac : List Nat → List Nat → List Nat) (pw saltBytes : List Nat) :
    Nat → List Nat
  | 0 => scramU hmac pw saltBytes 0
  | k + 1 => List.zipWith Nat.xor (scramHiSpec hmac pw saltBytes k)
      (scramU hmac pw saltBytes (k + 1))

/-- Follows the claim's words: `clientFirstBare = "n=*,r=" || clientNonce`. -/
def specClientFirstBare (clientNonce : String) : String := "n=*,r=" ++ clientNonce

/-- Follows the claim's words: the server-first message echoed into the
auth message. -/
def specServerFirst (nonce salt : String) (iterations : Nat) : String :=
  "r=" ++ nonce ++ ",s=" ++ salt ++ ",i=" ++ toString iterations

/-- Follows the claim's words: `clientFinalWithoutProof = "c=biws,r=" || nonce`. -/
def specClientFinalNoProof (nonce : String) : String := "c=biws,r=" ++ nonce

/-- Follows the claim's words: `authMessage = clientFirstBare || "," ||
serverFirst || "," || clientFinalWithoutProof`. -/
def specAuthMessage (clientNonce nonce salt : String) (iterations : Nat) : String :=
  specClientFirstBare clientNonce ++ "," ++ specServerFirst nonce salt iterations ++ "," ++
    specClientFinalNoProof nonce

/-- Follows the claim's words: `clientKey = HMAC-SHA-256(saltedPassword, "Client Key")`. -/
def specClientKey (hmac : List Nat → List Nat → List Nat) (saltedPassword : List Nat) :
    List Nat :=
  hmac saltedPassword (utf8Bytes "Client Key")

/-- Follows the claim's words:
`base64(clientKey XOR HMAC-SHA-256(SHA-256(clientKey), authMessage))`. -/
def specClientProof (hmac : List Nat → List Nat → List Nat) (sha256 : List Nat → List Nat)
    (saltedPassword : List Nat) (authMessage : String) : String :=
  base64Encode (List.zipWith Nat.xor (specClientKey hmac saltedPassword)
    (hmac (sha256 (specClientKey hmac saltedPassword)) (utf8Bytes authMessage)))

/-- Follows the claim's words:
`base64(HMAC-SHA-256(HMAC-SHA-256(saltedPassword, "Server Key"), authMessage))`. -/
def specServerSignature (hmac : List Nat → List Nat → List Nat)
    (saltedPassword : List Nat) (authMessage : String) : String :=
  base64Encode (hmac (hmac saltedPassword (utf8Bytes "Server Key")) (utf8Bytes authMessage))

/-- Follows the claim's words:
`response = clientFinalWithoutProof || ",p=" || clientProof`. -/
def specResponse (hmac : List Nat → List Nat → List Nat) (sha256 : List Nat → List Nat)
    (saltedPassword : List Nat) (nonce : String) (authMessage : String) : String :=
  specClientFinalNoProof nonce ++ ",p=" ++ specClientProof hmac sha256 saltedPassword authMessage

/-- Follows the claim's words (C4): printable ASCII, `0x20`–`0x7E`. -/
def printableAscii (c : Char) : Bool := 32 ≤ c.toNat && c.toNat ≤ 126

/-- Follows the claim's words (C4): the nonce attribute is missing or
contains a character that is not printable ASCII or is a comma. -/
def claimBadNonce : Option String → Prop
  | none => True
  | some s => ∃ c ∈ s.data, printableAscii c = false ∨ c = ','

/-- Follows the claim's words (C4): the salt attribute is missing or not
valid base64. -/
def claimBadSalt : Option String → Prop
  | none => True
  | some s => isBase64String s = false

/-- Follows the claim's words (C4): the iteration-count attribute is missing
or is not (the decimal text of) a positive integer. -/
def claimBadIter : Option String → Prop
  | none => True
  | some s => ¬ (s ≠ "" ∧ (∀ c ∈ s.data, c.isDigit) ∧ 0 < parseDecimal s)

/-! ## Concrete fixtures for witnesses and counterexamples -/

/-- A stand-in 32-byte primitive used to instantiate the abstract HMAC in
witnesses. -/
def constHmac32 : List Nat → List Nat → List Nat := fun _ _ => List.replicate 32 7

/-- A second, different stand-in HMAC. -/
def constHmac32b : List Nat → List Nat → List Nat := fun _ _ => List.replicate 32 9

/-- A stand-in 32-byte digest used to instantiate the abstract SHA-256. -/
def constSha32 : List Nat → List Nat := fun _ => List.replicate 32 3

/-- A second, different stand-in digest. -/
def constSha32b : List Nat → List Nat := fun _ => List.replicate 32 5

/-- Extract the success value of an `Except`, with a fallback. -/
def okOr (d : α) : Except ε α → α
  | .ok a => a
  | .error _ => d

/-- A client state with TLS pipelining configured but Postgres-level SSL
disabled (plain `ws:` connection without `sslmode`). -/
def stC6 : NeonState :=
  { config := .noConfig, envPGHOST := some "dbhost", envUSER := none, envUSERNAME := none,
    host := "dbhost", user := some "u", database := some "db", password := some "pw",
    ssl := false, forceDisablePgSSL := false, useSecureWebSocket := true,
    pipelineTLS := true, pipelineConnect := .off, emitter := emptyEmitter }

/-- A client state for the password-pipelining witnesses: SSL on, both
pipelining options on. -/
def stC5 : NeonState :=
  { config := .noConfig, envPGHOST := some "dbhost", envUSER := none, envUSERNAME := none,
    host := "dbhost", user := some "u", database := some "db", password := some "pw",
    ssl := true, forceDisablePgSSL := false, useSecureWebSocket := true,
    pipelineTLS := true, pipelineConnect := .password, emitter := emptyEmitter }

/-- The client state reached by `connect stC5`. -/
def stC5post : NeonState := okOr stC5 (connect stC5).2

/-- The client state reached by `connect stC9` (same fixture as `stC5`,
kept separate so no two claims share a definition chain by accident). -/
def stC9 : NeonState :=
  { config := .obj (some "dbhost") none, envPGHOST := none, envUSER := none, envUSERNAME := none,
    host := "dbhost", user := some "u", database := some "db", password := some "pw",
    ssl := true, forceDisablePgSSL := false, useSecureWebSocket := false,
    pipelineTLS := false, pipelineConnect := .password, emitter := emptyEmitter }

/-- The client state reached by `connect stC9`. -/
def stC9post : NeonState := okOr stC9 (connect stC9).2

/-- A client state with nothing configured and every key parameter at its
default. -/
def stC10 : NeonState :=
  { config := .noConfig, envPGHOST := none, envUSER := some "alice", envUSERNAME := none,
    host := "localhost", user := some "alice", database := some "alice", password := none,
    ssl := false, forceDisablePgSSL := false, useSecureWebSocket := true,
    pipelineTLS := false, pipelineConnect := .off, emitter := emptyEmitter }

/-- A client state with double encryption: Postgres SSL on over a secure
WebSocket. -/
def stC8 : NeonState :=
  { config := .noConfig, envPGHOST := some "dbhost", envUSER := none, envUSERNAME := none,
    host := "dbhost", user := some "u", database := some "db", password := some "pw",
    ssl := true, forceDisablePgSSL := false, useSecureWebSocket := true,
    pipelineTLS := false, pipelineConnect := .off, emitter := emptyEmitter }

/-! ## Helper lemmas -/

theorem xorZipCode_eq_zipWith {a b : List Nat} (h : a.length = b.length) :
    xorZipCode a b = List.zipWith Nat.xor a b := by
  apply List.ext_getElem
  · simp [xorZipCode, h]
  · intro i h1 h2
    have hia : i < a.length := by simpa [xorZipCode] using h1
    have hib : i < b.length := h ▸ hia
    simp only [xorZipCode, List.getElem_map, List.getElem_range,
      List.getD_eq_getElem?_getD, List.getElem?_eq_getElem, hia, hib, Option.getD_some,
      List.getElem_zipWith]
    rfl

theorem scramU_length {hmac : List Nat → List Nat → List Nat}
    (Hlen : ∀ k m, (hmac k m).length = 32) (pw saltBytes : List Nat) (k : Nat) :
    (scramU hmac pw saltBytes k).length = 32 := by
  cases k <;> simp [scramU, Hlen]

theorem scramHiSpec_length {hmac : List Nat → List Nat → List Nat}
    (Hlen : ∀ k m, (hmac k m).length = 32) (pw saltBytes : List Nat) (k : Nat) :
    (scramHiSpec hmac pw saltBytes k).length = 32 := by
  induction k with
  | zero => simpa [scramHiSpec] using scramU_length Hlen pw saltBytes 0
  | succ k ih =>
      simp [scramHiSpec, List.length_zipWith, ih, scramU_length Hlen pw saltBytes]

theorem scramIterLoop_spec {hmac : List Nat → List Nat → List Nat}
    (Hlen : ∀ k m, (hmac k m).length = 32) (pw saltBytes : List Nat) :
    ∀ m j, scramIterLoop hmac pw m
        (scramU hmac pw saltBytes j, scramHiSpec hmac pw saltBytes j) =
      (scramU hmac pw saltBytes (j + m), scramHiSpec hmac pw saltBytes (j + m)) := by
  intro m
  induction m with
  | zero => intro j; simp [scramIterLoop]
  | succ m ih =>
      intro j
      have h1 : hmac pw (scramU hmac pw saltBytes j) = scramU hmac pw saltBytes (j + 1) := rfl
      have h2 : xorZipCode (scramHiSpec hmac pw saltBytes j) (scramU hmac pw saltBytes (j + 1)) =
          scramHiSpec hmac pw saltBytes (j + 1) := by
        rw [xorZipCode_eq_zipWith (by
          rw [scramHiSpec_length Hlen pw saltBytes, scramU_length Hlen pw saltBytes])]
        rfl
      calc scramIterLoop hmac pw (m + 1)
            (scramU hmac pw saltBytes j, scramHiSpec hmac pw saltBytes j)
          = scramIterLoop hmac pw m
              (scramU hmac pw saltBytes (j + 1), scramHiSpec hmac pw saltBytes (j + 1)) := by
            rw [scramIterLoop, h1, h2]
        _ = (scramU hmac pw saltBytes (j + 1 + m), scramHiSpec hmac pw saltBytes (j + 1 + m)) :=
            ih (j + 1)
        _ = (scramU hmac pw saltBytes (j + (m + 1)), scramHiSpec hmac pw saltBytes (j + (m + 1))) := by
            rw [Nat.add_right_comm, Nat.add_assoc]

theorem char_isDigit_of_bounds {c : Char} (h1 : 48 ≤ c.toNat) (h2 : c.toNat ≤ 57) :
    c.isDigit = true := by
  simp only [Char.isDigit, ge_iff_le, Bool.and_eq_true, decide_eq_true_eq]
  constructor
  · rw [UInt32.le_def, BitVec.le_def]
    exact h1
  · rw [UInt32.le_def, BitVec.le_def]
    exact h2

theorem parseAttrPair_error {s : String} {e : SASLError}
    (h : parseAttrPair s = .error e) : e = .invalidAttrPair := by
  unfold parseAttrPair at h
  repeat' split at h
  all_goals simp_all

theorem parseAttrPairs_error {s : String} {e : SASLError}
    (h : parseAttrPairs s = .error e) : e = .invalidAttrPair := by
  unfold parseAttrPairs at h
  generalize splitComma s = l at h
  induction l with
  | nil => rw [List.mapM_nil] at h; exact absurd h (by simp [pure, Except.pure])
  | cons a l ih =>
      rw [List.mapM_cons] at h
      cases ha : parseAttrPair a with
      | error e1 =>
          rw [ha] at h
          simp only [bind, Except.bind] at h
          cases h
          exact parseAttrPair_error ha
      | ok b =>
          rw [ha] at h
          simp only [bind, Except.bind] at h
          cases hl : l.mapM parseAttrPair with
          | error e2 =>
              rw [hl] at h
              simp only [Except.bind] at h
              cases h
              exact ih hl
          | ok bs =>
              rw [hl] at h
              simp [Except.bind, pure, Except.pure] at h

theorem scramValidate_error_isAuthError {inp : ScramInput} {e : SASLError}
    (h : scramValidate inp = .error e) : e.isAuthError = true := by
  unfold scramValidate at h
  split at h
  case _ password serverData =>
    split at h
    · cases h; rfl
    · split at h
      case _ e1 he1 =>
          cases h
          rw [parseAttrPairs_error he1]
          rfl
      case _ pairs _ =>
          split at h
          · cases h; rfl
          case _ nonce =>
            repeat' split at h
            all_goals first
              | (cases h; rfl)
              | simp_all
  case _ =>
    cases h; rfl

theorem scramValidate_ok {inp : ScramInput} {p : ScramParams}
    (h : scramValidate inp = .ok p) :
    ∃ serverData pairs,
      inp.serverData = some serverData ∧
      parseAttrPairs serverData = .ok pairs ∧
      inp.password = some p.password ∧
      lookupAttr pairs 'r' = some p.nonce ∧
      lookupAttr pairs 's' = some p.salt ∧
      lookupAttr pairs 'i' = some p.iterationText ∧
      p.nonce ≠ "" ∧ p.nonce.data.all nonceChar = true ∧
      p.salt ≠ "" ∧ isBase64String p.salt = true ∧
      iterTextOk p.iterationText = true ∧
      strStartsWith p.nonce inp.session.clientNonce = true ∧
      p.nonce.length ≠ inp.session.clientNonce.length := by
  cases hpw : inp.password with
  | none => simp [scramValidate, hpw] at h
  | some password =>
  cases hsd : inp.serverData with
  | none => simp [scramValidate, hpw, hsd] at h
  | some serverData =>
  simp only [scramValidate, hpw, hsd] at h
  split at h
  · exact absurd h (by simp)
  split at h
  · exact absurd h (by simp)
  next pairs hpairs =>
  split at h
  · exact absurd h (by simp)
  next nonce hnonce =>
  split at h
  · exact absurd h (by simp)
  next hnc =>
  split at h
  · exact absurd h (by simp)
  next salt hsalt =>
  split at h
  · exact absurd h (by simp)
  next hsc =>
  split at h
  · exact absurd h (by simp)
  next iterationText hiter =>
  split at h
  · exact absurd h (by simp)
  next hitc =>
  split at h
  · exact absurd h (by simp)
  next hsw =>
  split at h
  · exact absurd h (by simp)
  next hlen =>
  cases h
  push_neg at hnc hsc
  exact ⟨serverData, pairs, rfl, hpairs, rfl, hnonce, hsalt, hiter,
    hnc.1, by simpa using hnc.2, hsc.1, by simpa using hsc.2,
    by simpa using hitc, by simpa using hsw, hlen⟩

theorem emitEvent_rfq_normal (dw : Bool) (s : EmitterState)
    (h : s.readyForQueryL = [⟨HandlerTag.handleReadyForQuery, false⟩]) :
    emitEvent dw s .readyForQueryEv = (s, [Action.callHandleReadyForQuery]) := by
  cases s with
  | mk c sc r a =>
      simp only at h
      subst h
      simp [emitEvent, EmitterState.get, EmitterState.set, runListeners, runHandler]

theorem emitIter_fixed (dw : Bool) (s : EmitterState)
    (h : emitEvent dw s .readyForQueryEv = (s, [Action.callHandleReadyForQuery])) :
    ∀ n, emitIter dw n s = s := by
  intro n
  induction n with
  | zero => rfl
  | succ n ih => rw [emitIter, h]; exact ih

theorem emit_rfq_repeat (dw : Bool) (n : Nat) (s : EmitterState)
    (hs : s.readyForQueryL = [⟨HandlerTag.handleReadyForQuery, false⟩]) :
    (emitEvent dw (emitIter dw n s) .readyForQueryEv).2 = [Action.callHandleReadyForQuery] := by
  rw [emitIter_fixed dw s (emitEvent_rfq_normal dw s hs) n, emitEvent_rfq_normal dw s hs]

/-! ## Claim theorems -/

/-- C1: for every password, salt and iteration count `n ≥ 1` (and any
32-byte-output HMAC primitive), the salted password computed by the
iterated fold of `_handleAuthSASLContinue` equals the SCRAM-SHA-256
reference definition `U1 XOR U2 XOR ... XOR Un` with
`U1 = HMAC(password, salt || 0x00000001)` and `U(k+1) = HMAC(password, Uk)`;
being a function of its inputs, it is in particular deterministic. -/
theorem saltedPassword_matches_scram_reference
    (hmac : List Nat → List Nat → List Nat)
    (Hlen : ∀ k m, (hmac k m).length = 32)
    (pw saltBytes : List Nat) (n : Nat) (hn : 1 ≤ n) :
    scramSaltedPassword hmac pw saltBytes n = scramHiSpec hmac pw saltBytes (n - 1) := by
  calc scramSaltedPassword hmac pw saltBytes n
      = (scramIterLoop hmac pw (n - 1)
          (scramU hmac pw saltBytes 0, scramHiSpec hmac pw saltBytes 0)).2 := rfl
    _ = scramHiSpec hmac pw saltBytes (0 + (n - 1)) := by
        rw [scramIterLoop_spec Hlen pw saltBytes (n - 1) 0]
    _ = scramHiSpec hmac pw saltBytes (n - 1) := by rw [Nat.zero_add]

/-- Witness for C1 at `hmac := constHmac32`, password `[1, 2]`, salt `[3]`,
`n := 3`. -/
theorem saltedPassword_matches_scram_reference_witness :
    1 ≤ 3 ∧ scramSaltedPassword constHmac32 [1, 2] [3] 3 = scramHiSpec constHmac32 [1, 2] [3] 2 :=
  ⟨by decide,
   saltedPassword_matches_scram_reference constHmac32 (fun _ _ => by simp [constHmac32])
     [1, 2] [3] 3 (by decide)⟩

/-- C3: for every challenge whose server nonce does not start with the
client nonce, or has exactly the client nonce's length,
`_handleAuthSASLContinue` fails with an error of the `AuthError` class, and
the result does not depend on the HMAC/SHA-256 primitives (no such
computation happens before the failure). -/
theorem serverNonce_mismatch_fails_before_crypto
    (hmac hmac2 : List Nat → List Nat → List Nat) (sha256 sha2b : List Nat → List Nat)
    (inp : ScramInput) (serverData : String) (pairs : List (Char × String)) (nv : String)
    (hcr : inp.cryptoAvailable = true)
    (hd : inp.serverData = some serverData)
    (hp : parseAttrPairs serverData = .ok pairs)
    (hr : lookupAttr pairs 'r' = some nv)
    (hbad : ¬ strStartsWith nv inp.session.clientNonce = true ∨
      nv.length = inp.session.clientNonce.length) :
    isAuthFailure (handleAuthSASLContinue hmac sha256 inp) = true ∧
    handleAuthSASLContinue hmac sha256 inp = handleAuthSASLContinue hmac2 sha2b inp := by
  cases hv : scramValidate inp with
  | ok q =>
      exfalso
      obtain ⟨sd, prs, hsd, hprs, -, hrq, -, -, -, -, -, -, -, hsw, hlen⟩ := scramValidate_ok hv
      rw [hd] at hsd
      injection hsd with hsd
      subst hsd
      rw [hp] at hprs
      injection hprs with hprs
      subst hprs
      rw [hr] at hrq
      injection hrq with hrq
      rcases hbad with hb | hb
      · exact hb (hrq ▸ hsw)
      · exact hlen (hrq ▸ hb)
  | error e =>
      refine ⟨?_, ?_⟩
      · simp [handleAuthSASLContinue, hcr, hv, isAuthFailure,
          scramValidate_error_isAuthError hv]
      · simp [handleAuthSASLContinue, hcr, hv]

/-- Witness for C3: client nonce `abc`, server nonce `xyz`. -/
theorem serverNonce_mismatch_fails_before_crypto_witness :
    isAuthFailure (handleAuthSASLContinue constHmac32 constSha32
      ⟨true, ⟨"SASLInitialResponse", "abc"⟩, some "pw", some "r=xyz,s=QUFB,i=1"⟩) = true ∧
    handleAuthSASLContinue constHmac32 constSha32
        ⟨true, ⟨"SASLInitialResponse", "abc"⟩, some "pw", some "r=xyz,s=QUFB,i=1"⟩ =
      handleAuthSASLContinue constHmac32b constSha32b
        ⟨true, ⟨"SASLInitialResponse", "abc"⟩, some "pw", some "r=xyz,s=QUFB,i=1"⟩ :=
  serverNonce_mismatch_fails_before_crypto constHmac32 constHmac32b constSha32 constSha32b
    ⟨true, ⟨"SASLInitialResponse", "abc"⟩, some "pw", some "r=xyz,s=QUFB,i=1"⟩
    "r=xyz,s=QUFB,i=1" [('r', "xyz"), ('s', "QUFB"), ('i', "1")] "xyz"
    rfl rfl rfl rfl (Or.inl (by decide))

/-- C4: for every challenge whose nonce attribute is missing or contains a
non-printable-ASCII character or a comma, or whose salt attribute is
missing or not valid base64, or whose iteration-count attribute is missing
or not a positive integer, `_handleAuthSASLContinue` fails with an error of
the `AuthError` class (each carrying its own reason constructor), and the
result does not depend on the HMAC/SHA-256 primitives (the key derivation
never proceeds). -/
theorem malformed_attributes_fail_before_crypto
    (hmac hmac2 : List Nat → List Nat → List Nat) (sha256 sha2b : List Nat → List Nat)
    (inp : ScramInput) (serverData : String) (pairs : List (Char × String))
    (hcr : inp.cryptoAvailable = true)
    (hd : inp.serverData = some serverData)
    (hp : parseAttrPairs serverData = .ok pairs)
    (hbad : claimBadNonce (lookupAttr pairs 'r') ∨ claimBadSalt (lookupAttr pairs 's') ∨
      claimBadIter (lookupAttr pairs 'i')) :
    isAuthFailure (handleAuthSASLContinue hmac sha256 inp) = true ∧
    handleAuthSASLContinue hmac sha256 inp = handleAuthSASLContinue hmac2 sha2b inp := by
  cases hv : scramValidate inp with
  | ok q =>
      exfalso
      obtain ⟨sd, prs, hsd, hprs, -, hrq, hsq, hiq, -, hnall, -, hsb64, hitok, -, -⟩ :=
        scramValidate_ok hv
      rw [hd] at hsd
      injection hsd with hsd
      subst hsd
      rw [hp] at hprs
      injection hprs with hprs
      subst hprs
      rcases hbad with hb | hb | hb
      · rw [hrq] at hb
        obtain ⟨c, hc, hcbad⟩ := hb
        have := List.all_eq_true.mp hnall c hc
        rcases hcbad with hpr | hcm
        · simp [printableAscii, nonceChar] at hpr this
          omega
        · subst hcm
          simp [nonceChar] at this
      · rw [hsq] at hb
        simp only [claimBadSalt] at hb
        rw [hsb64] at hb
        cases hb
      · rw [hiq] at hb
        simp only [claimBadIter] at hb
        refine hb ⟨?_, ?_, ?_⟩
        · intro hq
          rw [hq] at hitok
          simp [iterTextOk] at hitok
        · intro c hc
          revert hitok
          unfold iterTextOk
          cases hdq : q.iterationText.data with
          | nil => intro hitok; cases hitok
          | cons c0 rest =>
              intro hitok
              rw [hdq] at hc
              simp only [Bool.and_eq_true] at hitok
              rcases List.mem_cons.mp hc with hc0 | hcr
              · subst hc0
                simp only [decide_eq_true_eq] at hitok
                exact char_isDigit_of_bounds (by omega) (by omega)
              · exact List.all_eq_true.mp hitok.2 c hcr
        · revert hitok
          unfold iterTextOk parseDecimal
          cases hdq : q.iterationText.data with
          | nil => intro hitok; cases hitok
          | cons c0 rest =>
              intro hitok
              simp only [Bool.and_eq_true, decide_eq_true_eq] at hitok
              rw [List.foldl_cons]
              have h1 : 1 ≤ 0 * 10 + (c0.toNat - 48) := by omega
              -- the accumulator never decreases below 1 afterwards
              have : ∀ (l : List Char) (acc : Nat), 1 ≤ acc →
                  1 ≤ l.foldl (fun a c => a * 10 + (c.toNat - 48)) acc := by
                intro l
                induction l with
                | nil => intro acc hacc; simpa using hacc
                | cons x xs ih =>
                    intro acc hacc
                    rw [List.foldl_cons]
                    exact ih _ (by omega)
              exact this rest _ h1
  | error e =>
      refine ⟨?_, ?_⟩
      · simp [handleAuthSASLContinue, hcr, hv, isAuthFailure,
          scramValidate_error_isAuthError hv]
      · simp [handleAuthSASLContinue, hcr, hv]

/-- Witness for C4: iteration count `0` is not a positive integer. -/
theorem malformed_attributes_fail_before_crypto_witness :
    isAuthFailure (handleAuthSASLContinue constHmac32 constSha32
      ⟨true, ⟨"SASLInitialResponse", "a"⟩, some "pw", some "r=ab,s=QUFB,i=0"⟩) = true ∧
    handleAuthSASLContinue constHmac32 constSha32
        ⟨true, ⟨"SASLInitialResponse", "a"⟩, some "pw", some "r=ab,s=QUFB,i=0"⟩ =
      handleAuthSASLContinue constHmac32b constSha32b
        ⟨true, ⟨"SASLInitialResponse", "a"⟩, some "pw", some "r=ab,s=QUFB,i=0"⟩ :=
  malformed_attributes_fail_before_crypto constHmac32 constHmac32b constSha32 constSha32b
    ⟨true, ⟨"SASLInitialResponse", "a"⟩, some "pw", some "r=ab,s=QUFB,i=0"⟩
    "r=ab,s=QUFB,i=0" [('r', "ab"), ('s', "QUFB"), ('i', "0")]
    rfl rfl rfl
    (Or.inr (Or.inr (by simp [lookupAttr, claimBadIter, parseDecimal])))

/-- C2: for every valid challenge, `_handleAuthSASLContinue` sets the
session message to `SASLResponse`, the expected server signature to
`base64(HMAC(HMAC(saltedPassword, "Server Key"), authMessage))` with
`authMessage = clientFirstBare || "," || serverFirst || "," ||
clientFinalWithoutProof`, the response to `clientFinalWithoutProof || ",p="
|| base64(clientKey XOR HMAC(SHA-256(clientKey), authMessage))`, and sends
exactly that response through the connection. -/
theorem scram_final_message_matches_spec
    (hmac : List Nat → List Nat → List Nat) (sha256 : List Nat → List Nat)
    (Hlen : ∀ k m, (hmac k m).length = 32)
    (inp : ScramInput) (p : ScramParams)
    (hcr : inp.cryptoAvailable = true)
    (hv : scramValidate inp = .ok p) :
    handleAuthSASLContinue hmac sha256 inp =
      .ok { sessionMessage := "SASLResponse"
            serverSignature := specServerSignature hmac
              (scramSaltedPassword hmac (utf8Bytes p.password) (base64Decode p.salt)
                (parseDecimal p.iterationText))
              (specAuthMessage inp.session.clientNonce p.nonce p.salt
                (parseDecimal p.iterationText))
            response := specResponse hmac sha256
              (scramSaltedPassword hmac (utf8Bytes p.password) (base64Decode p.salt)
                (parseDecimal p.iterationText))
              p.nonce
              (specAuthMessage inp.session.clientNonce p.nonce p.salt
                (parseDecimal p.iterationText))
            sent := specResponse hmac sha256
              (scramSaltedPassword hmac (utf8Bytes p.password) (base64Decode p.salt)
                (parseDecimal p.iterationText))
              p.nonce
              (specAuthMessage inp.session.clientNonce p.nonce p.salt
                (parseDecimal p.iterationText)) } := by
  simp only [handleAuthSASLContinue, hcr, hv, Bool.true_eq_false, if_false]
  simp only [scramCompute, specResponse, specClientProof, specClientKey,
    specServerSignature, specAuthMessage, specClientFirstBare, specServerFirst,
    specClientFinalNoProof]
  rw [xorZipCode_eq_zipWith (by rw [Hlen, Hlen])]

/-- Witness for C2 at a one-iteration challenge with salt `QUFBQQ==`. -/
theorem scram_final_message_matches_spec_witness :
    handleAuthSASLContinue constHmac32 constSha32
        ⟨true, ⟨"SASLInitialResponse", "abc"⟩, some "pw", some "r=abcd,s=QUFBQQ==,i=1"⟩ =
      .ok { sessionMessage := "SASLResponse"
            serverSignature := specServerSignature constHmac32
              (scramSaltedPassword constHmac32 (utf8Bytes "pw") (base64Decode "QUFBQQ==")
                (parseDecimal "1"))
              (specAuthMessage "abc" "abcd" "QUFBQQ==" (parseDecimal "1"))
            response := specResponse constHmac32 constSha32
              (scramSaltedPassword constHmac32 (utf8Bytes "pw") (base64Decode "QUFBQQ==")
                (parseDecimal "1"))
              "abcd"
              (specAuthMessage "abc" "abcd" "QUFBQQ==" (parseDecimal "1"))
            sent := specResponse constHmac32 constSha32
              (scramSaltedPassword constHmac32 (utf8Bytes "pw") (base64Decode "QUFBQQ==")
                (parseDecimal "1"))
              "abcd"
              (specAuthMessage "abc" "abcd" "QUFBQQ==" (parseDecimal "1")) } :=
  scram_final_message_matches_spec constHmac32 constSha32 (fun _ _ => by simp [constHmac32])
    ⟨true, ⟨"SASLInitialResponse", "abc"⟩, some "pw", some "r=abcd,s=QUFBQQ==,i=1"⟩
    ⟨"pw", "abcd", "QUFBQQ==", "1"⟩ rfl rfl

/-- C7: when `crypto.subtle`/`importKey` is unavailable,
`_handleAuthSASLContinue` fails with the `ConfigurationError`, whatever the
session, password and challenge are (so before reading any of them). -/
theorem cryptoMissing_configuration_error
    (hmac : List Nat → List Nat → List Nat) (sha256 : List Nat → List Nat)
    (session : SaslSession) (password serverData : Option String) :
    handleAuthSASLContinue hmac sha256
        ⟨false, session, password, serverData⟩ =
      .error .configCryptoMissing := rfl

/-- C10: when neither a host nor a connection string is configured (in the
config object or `PGHOST`) and host, user, database and password still hold
their defaults (`localhost`, the OS user name, the OS user name, `null`),
`connect` throws an `Error` and never reaches `super.connect` (no network
activity is attempted). -/
theorem connect_throws_on_default_params
    (st : NeonState)
    (hcfg : st.config = ConfigModel.noConfig ∨ st.config = ConfigModel.obj none none)
    (hpg : st.envPGHOST = none)
    (hhost : st.host = "localhost")
    (huser : st.user = defaultUser st)
    (hdb : st.database = defaultUser st)
    (hpw : st.password = none) :
    (connect st).2 = .error (missingParamsMsg (defaultUser st)) ∧
    Action.superConnect ∉ (connect st).1 := by
  have hdu : defaultUser { st with ssl := false } = defaultUser st := rfl
  have hch : ∀ b, hasConfiguredHost { st with ssl := b } = false := by
    intro b
    rcases hcfg with h | h <;> simp [hasConfiguredHost, h, hpg]
  have hch0 : hasConfiguredHost st = false := by
    rcases hcfg with h | h <;> simp [hasConfiguredHost, h, hpg]
  unfold connect
  by_cases hf : st.forceDisablePgSSL <;>
    simp only [hf, if_true, if_false, ite_true, ite_false] <;>
    rw [if_pos] <;>
    first
      | (constructor
         · rfl
         · split <;> simp)
      | exact ⟨hch _ ▸ (by simpa using ⟨hhost, huser, hdb, hpw⟩), hhost, huser, hdb, hpw⟩
      | exact ⟨by simpa using hch0, hhost, huser, hdb, hpw⟩

/-- Witness for C10: empty environment and all-default parameters. -/
theorem connect_throws_on_default_params_witness :
    (connect stC10).2 = .error (missingParamsMsg (defaultUser stC10)) ∧
    Action.superConnect ∉ (connect stC10).1 :=
  connect_throws_on_default_params stC10 (Or.inl rfl) rfl rfl rfl rfl rfl

/-- C8: when Postgres-level SSL stays enabled and the WebSocket is secure,
`connect` emits the double-encryption warning and otherwise behaves exactly
as it would with the warning condition absent: same outcome up to the
`useSecureWebSocket` flag it was given. -/
theorem doubleSSL_warns_but_proceeds
    (st : NeonState)
    (hf : st.forceDisablePgSSL = false)
    (hssl : st.ssl = true)
    (hwss : st.useSecureWebSocket = true) :
    (connect st).1 =
      Action.warnDoubleSSL :: (connect { st with useSecureWebSocket := false }).1 ∧
    (connect st).2 =
      Except.map (fun s : NeonState => { s with useSecureWebSocket := true })
        (connect { st with useSecureWebSocket := false }).2 := by
  unfold connect
  simp only [hf, hssl, hwss, Bool.false_eq_true, if_false, ite_false, Bool.and_self,
    Bool.and_true, Bool.and_false, if_true, ite_true]
  split_ifs with h1 h2 h3 h4 h5 <;>
    simp_all [Except.map, superConnectEmitter, addL, EmitterState.get, EmitterState.set,
      hasConfiguredHost, defaultUser, missingParamsMsg]

/-- Witness for C8 at the concrete double-encryption state `stC8`. -/
theorem doubleSSL_warns_but_proceeds_witness :
    (connect stC8).1 =
      Action.warnDoubleSSL :: (connect { stC8 with useSecureWebSocket := false }).1 ∧
    (connect stC8).2 =
      Except.map (fun s : NeonState => { s with useSecureWebSocket := true })
        (connect { stC8 with useSecureWebSocket := false }).2 :=
  doubleSSL_warns_but_proceeds stC8 rfl rfl rfl

/-- C9: with password pipelining and Postgres-level SSL enabled, the
speculative handler that sends the cleartext password
(`_handleAuthCleartextPassword`) runs on the `sslconnect` event and never on
the plain `connect` event, so the password cannot be written before the TLS
upgrade completes. -/
theorem password_sent_only_after_sslconnect
    (st : NeonState) (acts : List Action) (st2 : NeonState) (dw : Bool)
    (hem : st.emitter = emptyEmitter)
    (hf : st.forceDisablePgSSL = false)
    (hssl : st.ssl = true)
    (hp : st.pipelineConnect = PipelineMode.password)
    (hc : connect st = (acts, Except.ok st2)) :
    Action.callHandleAuthCleartextPassword ∉ (emitEvent dw st2.emitter .connectEv).2 ∧
    Action.callHandleAuthCleartextPassword ∈ (emitEvent dw st2.emitter .sslconnectEv).2 := by
  unfold connect at hc
  rw [hf] at hc
  simp only [ite_false, if_false, Bool.false_eq_true] at hc
  split at hc
  · exact absurd (congrArg Prod.snd hc) (by simp)
  · rw [hp] at hc
    simp only [hssl, Bool.and_true, ite_true, if_true] at hc
    split at hc
    · next hoff => simp at hoff
    · have h2 := congrArg Prod.snd hc
      simp only [Except.ok.injEq] at h2
      subst h2
      by_cases hpt : st.pipelineTLS <;> cases dw <;>
        simp [hpt, hem, emptyEmitter, superConnectEmitter, addL, EmitterState.get,
          EmitterState.set, emitEvent, runListeners, runHandler]

/-- C5: with password pipelining, `connect` arranges that (a) the
`(ssl)connect` event triggers exactly one direct `_handleReadyForQuery`
call, treating the connection as immediately usable; (b) the first genuine
`readyForQuery` event is consumed by the one-shot listener, which re-arms
the normal `_handleReadyForQuery` handler; and (c) every subsequent
`readyForQuery` event is handled normally (exactly one handler call). -/
theorem password_pipelining_rearm
    (st : NeonState) (acts : List Action) (st2 : NeonState) (dw : Bool) (n : Nat)
    (hem : st.emitter = emptyEmitter)
    (hp : st.pipelineConnect = PipelineMode.password)
    (hc : connect st = (acts, Except.ok st2)) :
    ((emitEvent dw st2.emitter (if st2.ssl then .sslconnectEv else .connectEv)).2.count
        Action.callHandleReadyForQuery = 1) ∧
    (emitEvent dw st2.emitter .readyForQueryEv).2 = [] ∧
    (emitEvent dw st2.emitter .readyForQueryEv).1.readyForQueryL =
      [⟨HandlerTag.handleReadyForQuery, false⟩] ∧
    (emitEvent dw (emitIter dw n (emitEvent dw st2.emitter .readyForQueryEv).1)
        .readyForQueryEv).2 = [Action.callHandleReadyForQuery] := by
  unfold connect at hc
  rcases Bool.eq_false_or_eq_true st.forceDisablePgSSL with hf | hf <;>
    simp only [hf, hp, Bool.false_eq_true, eq_self_iff_true, if_true, if_false,
      ite_true, ite_false] at hc <;>
    (split at hc
     · exact absurd (congrArg Prod.snd hc) (by simp)
     · split at hc
       · next hoff => simp at hoff
       · have h2 := congrArg Prod.snd hc
         simp only [Except.ok.injEq] at h2
         subst h2
         rcases Bool.eq_false_or_eq_true st.ssl with hssl | hssl <;>
           rcases Bool.eq_false_or_eq_true st.pipelineTLS with hpt | hpt <;>
           cases dw <;>
           refine ⟨by simp [hssl, hpt, hem, emptyEmitter, superConnectEmitter, addL,
               EmitterState.get, EmitterState.set, emitEvent, runListeners, runHandler],
             by simp [hssl, hpt, hem, emptyEmitter, superConnectEmitter, addL,
               EmitterState.get, EmitterState.set, emitEvent, runListeners, runHandler],
             by simp [hssl, hpt, hem, emptyEmitter, superConnectEmitter, addL,
               EmitterState.get, EmitterState.set, emitEvent, runListeners, runHandler],
             emit_rfq_repeat _ n _ (by simp [hssl, hpt, hem, emptyEmitter,
               superConnectEmitter, addL, EmitterState.get, EmitterState.set, emitEvent,
               runListeners, runHandler])⟩)

/-- Witness for C5 at the concrete pipelined state `stC5`, with two
subsequent ready-for-query events. -/
theorem password_pipelining_rearm_witness :
    connect stC5 = ((connect stC5).1, Except.ok stC5post) ∧
    ((emitEvent false stC5post.emitter
        (if stC5post.ssl then .sslconnectEv else .connectEv)).2.count
      Action.callHandleReadyForQuery = 1) ∧
    (emitEvent false stC5post.emitter .readyForQueryEv).2 = [] ∧
    (emitEvent false stC5post.emitter .readyForQueryEv).1.readyForQueryL =
      [⟨HandlerTag.handleReadyForQuery, false⟩] ∧
    (emitEvent false (emitIter false 2 (emitEvent false stC5post.emitter .readyForQueryEv).1)
        .readyForQueryEv).2 = [Action.callHandleReadyForQuery] :=
  ⟨rfl, password_pipelining_rearm stC5 (connect stC5).1 stC5post false 2 rfl rfl rfl⟩

/-- Witness for C9 at the concrete state `stC9`. -/
theorem password_sent_only_after_sslconnect_witness :
    connect stC9 = ((connect stC9).1, Except.ok stC9post) ∧
    Action.callHandleAuthCleartextPassword ∉ (emitEvent false stC9post.emitter .connectEv).2 ∧
    Action.callHandleAuthCleartextPassword ∈ (emitEvent false stC9post.emitter .sslconnectEv).2 :=
  ⟨rfl, password_sent_only_after_sslconnect stC9 (connect stC9).1 stC9post false
    rfl rfl rfl rfl rfl⟩

/-- Counterexample to C6 as stated: in `stC6` TLS pipelining is configured
(`pipelineTLS = true`) but Postgres-level SSL is off; `connect` succeeds and
the `connect` event injects no `S` byte into the stream. -/
theorem pipelineTLS_claim_counterexample :
    Except.map
        (fun s : NeonState =>
          (emitEvent false s.emitter .connectEv).2.contains Action.streamDataS)
        (connect stC6).2 = Except.ok false := rfl

/-- C6 (amended): when TLS pipelining is configured and Postgres-level SSL
is enabled, `connect` installs a listener so that the instant the channel's
`connect` event fires, the SSL accept byte `S` is injected into the
stream's data events, without any server data having arrived. -/
theorem pipelineTLS_injects_accept_on_connect
    (st : NeonState) (acts : List Action) (st2 : NeonState) (dw : Bool)
    (hem : st.emitter = emptyEmitter)
    (hf : st.forceDisablePgSSL = false)
    (hssl : st.ssl = true)
    (hpt : st.pipelineTLS = true)
    (hc : connect st = (acts, Except.ok st2)) :
    Action.streamDataS ∈ (emitEvent dw st2.emitter .connectEv).2 := by
  unfold connect at hc
  rw [hf] at hc
  simp only [ite_false, if_false, Bool.false_eq_true, hssl, hpt, Bool.and_self,
    ite_true, if_true] at hc
  split at hc
  · exact absurd (congrArg Prod.snd hc) (by simp)
  · split at hc
    · next hoff => simp at hoff
    · have h2 := congrArg Prod.snd hc
      simp only [Except.ok.injEq] at h2
      subst h2
      cases hpc : st.pipelineConnect <;> cases dw <;>
        simp [hem, emptyEmitter, superConnectEmitter, addL, EmitterState.get,
          EmitterState.set, emitEvent, runListeners, runHandler]

/-- Witness for C6 (amended) at the concrete state `stC5` (SSL on, TLS
pipelining on). -/
theorem pipelineTLS_injects_accept_on_connect_witness :
    connect stC5 = ((connect stC5).1, Except.ok (okOr stC5 (connect stC5).2)) ∧
    Action.streamDataS ∈
      (emitEvent false (okOr stC5 (connect stC5).2).emitter .connectEv).2 :=
  ⟨rfl, pipelineTLS_injects_accept_on_connect stC5 (connect stC5).1
    (okOr stC5 (connect stC5).2) false rfl rfl rfl rfl rfl⟩

end NeonServerless
